import Mathlib

/-!
Verification development for the libTAS savestate coordinator
(`src/program/SaveState.cpp`) and the dynamic-symbol interception layer
(`dlhook.cpp`, appended to the same source file).

The C++ code is shallowly embedded: stateful functions become pure Lean
functions over explicit state records, and their externally visible
side effects (messages sent on the controller/game channel, files
written, resolution primitives invoked) are collected in explicit event
traces.  File-system contents and the peer's replies are supplied as
explicit parameters, since they are inputs of the embedded code.
-/

namespace LibTAS

/-! ## Input frames and movies -/

/-- A single recorded per-frame input state.  The concrete contents are
irrelevant to the coordinator; a small closed alphabet suffices for the
concrete scenarios (U/D/L/R directions). -/
inductive InputFrame
  | U
  | D
  | L
  | R
deriving DecidableEq, Repr

/-- In-memory movie state used by `SaveState.cpp`: the ordered input
list and the dirty flag `modifiedSinceLastStateLoad`. -/
structure MovieFile where
  inputs : List InputFrame
  modifiedSinceLastStateLoad : Bool
deriving DecidableEq, Repr

/-- Modelled from the spec: `MovieFile::isPrefix(const MovieFile&)`
(binary form) is not under `src/`; the glossary defines the prefix
relation as "sequence A is a prefix of B if every frame of A matches
the corresponding frame of B over A's length".  At the call site
`movie.isPrefix(savedmovie)` the source comment fixes the orientation:
the argument is the candidate prefix of the receiver. -/
def isMoviePrefixOf (A B : List InputFrame) : Bool :=
  decide (A <+: B)

/-- Modelled from the spec: `MovieFile::isPrefix(const MovieFile&, frame)`
(bounded form) is not under `src/`; section 4.3 defines it as: A is a
prefix of B up to N iff for every frame index in
[0, min(N, len(A), len(B))) the two recorded input states are equal. -/
def isPrefixUpTo (A B : List InputFrame) (n : Nat) : Bool :=
  decide (A.take (min n (min A.length B.length)) = B.take (min n (min A.length B.length)))

/-! ## Shared configuration and controller context -/

/-- `SharedConfig` recording mode. -/
inductive Recording
  | NO_RECORDING
  | RECORDING_WRITE
  | RECORDING_READ
deriving DecidableEq, Repr

/-- The fields of `SharedConfig` read or written by `SaveState.cpp`.
`ssRAM` stands for `savestate_settings & SharedConfig::SS_RAM`, and
`osdMessages` for `osd & SharedConfig::OSD_MESSAGES`. -/
structure SharedConfig where
  recording : Recording
  ssRAM : Bool
  osdMessages : Bool
  movie_framecount : Nat
  initial_time_sec : Int
  initial_time_nsec : Int
deriving DecidableEq, Repr

/-- The fields of the controller `Context` read or written by
`SaveState.cpp`. -/
structure Context where
  framecount : Nat
  rerecord_count : Nat
  current_time_sec : Nat
  current_time_nsec : Nat
  movie_time_sec : Int
  movie_time_nsec : Int
  sc : SharedConfig
  savestatedir : String
  gamename : String
deriving DecidableEq, Repr

/-! ## Messages and event traces -/

/-- Messages sent from the controller to the injected game process
(the `MSGN_*` constants used by `SaveState.cpp`).  The payload that the
code sends right after the tag (`sendData`/`sendString`) is folded into
the constructor. -/
inductive Msg
  | MSGN_SAVESTATE_INDEX (id : Nat)
  | MSGN_SAVESTATE_PATH (p : String)
  | MSGN_OSD_MSG (text : String)
  | MSGN_SAVESTATE
  | MSGN_LOADSTATE
  | MSGN_CONFIG
  | MSGN_EXPOSE
deriving DecidableEq, Repr

/-- Messages received from the game (`MSGB_*`).  The frame/time report
carries its three `uint64` payload words. -/
inductive GameMsg
  | MSGB_SAVING_SUCCEEDED
  | MSGB_LOADING_SUCCEEDED
  | MSGB_FRAMECOUNT_TIME (framecount : Nat) (sec : Nat) (nsec : Nat)
  | other (code : Int)
deriving DecidableEq, Repr

/-- Externally visible effects of one save/load/post-load operation, in
program order. -/
inductive Event
  | sendMsg (m : Msg)
  | saveMovie (path : String) (framecount : Nat)
  | createEmptyFile (p : String)
  | loadMovie (p : String)
deriving DecidableEq, Repr

/-! ## Savestate slots, paths, disk state -/

/-- The per-slot `SaveState` object: slot id, backtrack flag, cached
frame count, lazily built paths and on-screen-display messages (empty
string = not built yet, mirroring the `empty()` checks in the code). -/
structure SaveStateSlot where
  id : Nat
  is_backtrack : Bool
  framecount : Nat
  path : String
  pagemap_path : String
  pages_path : String
  movie_path : String
  saving_msg : String
  no_state_msg : String
  loading_msg : String
  loaded_msg : String
deriving DecidableEq, Repr

/-- `SaveState::buildPaths`: build the savestate and movie paths if not
already built. -/
def buildPaths (ctx : Context) (s : SaveStateSlot) : SaveStateSlot :=
  let p := if s.path = "" then ctx.savestatedir ++ "/" ++ ctx.gamename ++ ".state" ++ toString s.id
           else s.path
  { s with
    path := p
    pagemap_path := if s.pagemap_path = "" then p ++ ".pm" else s.pagemap_path
    pages_path := if s.pages_path = "" then p ++ ".p" else s.pages_path
    movie_path :=
      if s.movie_path = "" then
        ctx.savestatedir ++ "/" ++ ctx.gamename ++ ".movie" ++ toString s.id ++ ".ltm"
      else s.movie_path }

/-- `SaveState::buildMessages`: build the on-screen-display strings if
not already built. -/
def buildMessages (s : SaveStateSlot) : SaveStateSlot :=
  { s with
    saving_msg :=
      if s.saving_msg = "" then
        if s.is_backtrack then "Saving backtrack state" else "Saving state " ++ toString s.id
      else s.saving_msg
    no_state_msg :=
      if s.no_state_msg = "" then "No savestate in slot " ++ toString s.id else s.no_state_msg
    loading_msg :=
      if s.loading_msg = "" then
        if s.is_backtrack then "Loading backtrack state" else "Loading state " ++ toString s.id
      else s.loading_msg
    loaded_msg :=
      if s.loaded_msg = "" then
        if s.is_backtrack then "Backtrack state loaded"
        else "State " ++ toString s.id ++ " loaded"
      else s.loaded_msg }

/-- State of the slot's on-disk files, supplied to the embedded code as
input: existence of the page-map/page-data snapshot files and of the
companion movie file, the return value of
`MovieFile::loadInputs(movie_path)` for the slot movie, and the inputs
it yields on success. -/
structure Disk where
  pagemapExists : Bool
  pagesExists : Bool
  movieExists : Bool
  movieLoadRet : Int
  movieInputs : List InputFrame
deriving DecidableEq, Repr

/-! ## SaveState::save -/

/-- `SaveState::save`.  `resultMsg` is the message the peer answers
with.  Returns the result message (passed through), the updated slot
(cached frame count set on success) and the event trace. -/
def SaveState.save (ctx : Context) (s0 : SaveStateSlot) (resultMsg : GameMsg) :
    GameMsg × SaveStateSlot × List Event :=
  let s := buildMessages (buildPaths ctx s0)
  let t1 : List Event :=
    if ctx.sc.recording ≠ Recording.NO_RECORDING then
      [Event.saveMovie s.movie_path ctx.framecount]
    else []
  let t2 := t1 ++ [Event.sendMsg (Msg.MSGN_SAVESTATE_INDEX s.id)]
  let t3 := t2 ++
    (if ¬ ctx.sc.ssRAM then [Event.sendMsg (Msg.MSGN_SAVESTATE_PATH s.path)]
     else [Event.createEmptyFile s.pagemap_path, Event.createEmptyFile s.pages_path])
  let t4 := t3 ++
    (if ctx.sc.osdMessages then [Event.sendMsg (Msg.MSGN_OSD_MSG s.saving_msg)] else [])
  let t5 := t4 ++ [Event.sendMsg Msg.MSGN_SAVESTATE]
  let s' := if resultMsg = GameMsg.MSGB_SAVING_SUCCEEDED then { s with framecount := ctx.framecount }
            else s
  (resultMsg, s', t5)

/-! ## SaveState::load -/

/-- Result codes returned by `SaveState::load` (the `E*` constants and
the success fall-through `0`). -/
inductive LoadResult
  | ENOSTATEMOVIEPREFIX
  | ENOSTATE
  | ENOMOVIE
  | EINPUTMISMATCH
  | ok
deriving DecidableEq, Repr

/-- `SaveState::load`.  `movie` is the controller's current movie,
`branch` the explicit-branch flag, `disk` the on-disk state of the
slot's files.  Returns the result code and the event trace.

The duplicated inner guard in the no-state branch reproduces the
verbatim duplication in the source (the condition and comment appear
twice, nested). -/
def SaveState.load (ctx : Context) (movie : MovieFile) (branch : Bool)
    (s0 : SaveStateSlot) (disk : Disk) : LoadResult × List Event :=
  let s := buildMessages (buildPaths ctx s0)
  let t0 : List Event := [Event.sendMsg (Msg.MSGN_SAVESTATE_INDEX s.id)]
  let osdNoState : List Event :=
    if ctx.sc.osdMessages then [Event.sendMsg (Msg.MSGN_OSD_MSG s.no_state_msg)] else []
  if ¬ (disk.pagemapExists ∧ disk.pagesExists) then
    if ctx.sc.recording ≠ Recording.NO_RECORDING ∧ disk.movieExists then
      if ctx.sc.recording ≠ Recording.NO_RECORDING ∧ disk.movieExists then
        let t1 := t0 ++ [Event.loadMovie s.movie_path]
        if disk.movieLoadRet = 0 ∧ isPrefixUpTo movie.inputs disk.movieInputs ctx.framecount then
          (LoadResult.ENOSTATEMOVIEPREFIX, t1)
        else
          (LoadResult.ENOSTATE, t1 ++ osdNoState)
      else
        (LoadResult.ENOSTATE, t0 ++ osdNoState)
    else
      (LoadResult.ENOSTATE, t0 ++ osdNoState)
  else
    let t1 := t0 ++
      (if ¬ ctx.sc.ssRAM then [Event.sendMsg (Msg.MSGN_SAVESTATE_PATH s.path)] else [])
    let finish : List Event → LoadResult × List Event := fun t =>
      (LoadResult.ok,
        t ++ (if ctx.sc.osdMessages then [Event.sendMsg (Msg.MSGN_OSD_MSG s.loading_msg)] else [])
          ++ [Event.sendMsg Msg.MSGN_LOADSTATE])
    if ctx.sc.recording = Recording.RECORDING_READ ∧ branch = false then
      let t2 := t1 ++ [Event.loadMovie s.movie_path]
      if disk.movieLoadRet < 0 then
        (LoadResult.ENOMOVIE, t2)
      else if ¬ isMoviePrefixOf disk.movieInputs movie.inputs then
        (LoadResult.EINPUTMISMATCH,
          t2 ++ (if ctx.sc.osdMessages then
                   [Event.sendMsg (Msg.MSGN_OSD_MSG "Savestate inputs mismatch")]
                 else []))
      else
        finish t2
    else
      finish t1

/-! ## SaveState::postLoad -/

/-- Result of `SaveState::postLoad`: the `ENOLOAD` protocol error, the
`MSGB_LOADING_SUCCEEDED` passthrough, or the `0` fall-through when the
peer reported a failed load. -/
inductive PostLoadResult
  | ENOLOAD
  | LOADING_SUCCEEDED
  | zero
deriving DecidableEq, Repr

/-- Output of `SaveState::postLoad`: result code, updated context and
movie, and the event trace. -/
structure PostLoadOut where
  result : PostLoadResult
  ctx : Context
  movie : MovieFile
  events : List Event
deriving DecidableEq, Repr

/-- The tail of `SaveState::postLoad` after the frame/time report was
received: update frame count and times (with the nanosecond borrow when
writing), optionally show the loaded message, always send the expose
message. -/
def postLoadFinish (didLoad : Bool) (ctx1 : Context) (movie : MovieFile)
    (s : SaveStateSlot) (t : List Event) (fc sec nsec : Nat) : PostLoadOut :=
  let ctx2 := { ctx1 with framecount := fc, current_time_sec := sec, current_time_nsec := nsec }
  let ctx3 :=
    if ctx2.sc.recording = Recording.RECORDING_WRITE then
      let mts : Int := (sec : Int) - ctx2.sc.initial_time_sec
      let mtn : Int := (nsec : Int) - ctx2.sc.initial_time_nsec
      let mts' := if mtn < 0 then mts - 1 else mts
      let mtn' := if mtn < 0 then mtn + 1000000000 else mtn
      { ctx2 with
        sc := { ctx2.sc with movie_framecount := fc }
        movie_time_sec := mts'
        movie_time_nsec := mtn' }
    else ctx2
  let t3 := t ++
    (if didLoad && ctx3.sc.osdMessages then [Event.sendMsg (Msg.MSGN_OSD_MSG s.loaded_msg)]
     else [])
  let t4 := t3 ++ [Event.sendMsg Msg.MSGN_EXPOSE]
  { result := if didLoad then PostLoadResult.LOADING_SUCCEEDED else PostLoadResult.zero
    ctx := ctx3
    movie := movie
    events := t4 }

/-- `SaveState::postLoad`.  `firstMsg` is the first message received
(the peer's load result); `secondMsg` is the next message received when
the load succeeded.  `disk.movieInputs` supplies the contents read by
`movie.loadInputs(movie_path)` in write/branch mode (reloading inputs
replaces the movie's input list; the dirty flag is cleared only by the
explicit assignment that follows, matching the spec's post-load
contract). -/
def SaveState.postLoad (ctx0 : Context) (movie0 : MovieFile) (branch : Bool)
    (s : SaveStateSlot) (disk : Disk) (firstMsg secondMsg : GameMsg) : PostLoadOut :=
  let didLoad := firstMsg = GameMsg.MSGB_LOADING_SUCCEEDED
  if didLoad then
    let t1 : List Event := [Event.sendMsg Msg.MSGN_CONFIG]
    let movie1 :=
      if ctx0.sc.recording = Recording.RECORDING_WRITE ∨ branch then
        { movie0 with inputs := disk.movieInputs }
      else movie0
    let t2 :=
      if ctx0.sc.recording = Recording.RECORDING_WRITE ∨ branch then
        t1 ++ [Event.loadMovie s.movie_path]
      else t1
    let ctx1 :=
      if movie1.modifiedSinceLastStateLoad then
        { ctx0 with rerecord_count := ctx0.rerecord_count + 1 }
      else ctx0
    let movie2 :=
      if movie1.modifiedSinceLastStateLoad then
        { movie1 with modifiedSinceLastStateLoad := false }
      else movie1
    match secondMsg with
    | GameMsg.MSGB_FRAMECOUNT_TIME fc sec nsec =>
        postLoadFinish true ctx1 movie2 s t2 fc sec nsec
    | _ => { result := PostLoadResult.ENOLOAD, ctx := ctx1, movie := movie2, events := t2 }
  else
    match firstMsg with
    | GameMsg.MSGB_FRAMECOUNT_TIME fc sec nsec =>
        postLoadFinish false ctx0 movie0 s [] fc sec nsec
    | _ => { result := PostLoadResult.ENOLOAD, ctx := ctx0, movie := movie0, events := [] }

/-! ## Sequences of edit and load operations (for the rerecord-count
invariant) -/

/-- The joint state that edit/load sequences act on. -/
structure TasState where
  ctx : Context
  movie : MovieFile
deriving DecidableEq, Repr

/-- One operation of an edit/load sequence: a movie edit (modelled from
the spec: any movie edit sets the dirty flag "modified since last
load"), or a post-load with the given parameters and peer replies. -/
inductive TasOp
  | edit
  | loadAndPost (branch : Bool) (s : SaveStateSlot) (disk : Disk) (firstMsg secondMsg : GameMsg)

/-- Apply one operation to the state. -/
def applyOp (st : TasState) : TasOp → TasState
  | TasOp.edit =>
      { st with movie := { st.movie with modifiedSinceLastStateLoad := true } }
  | TasOp.loadAndPost branch s disk m1 m2 =>
      let o := SaveState.postLoad st.ctx st.movie branch s disk m1 m2
      { ctx := o.ctx, movie := o.movie }

/-- Run a whole sequence of operations. -/
def runOps (st : TasState) : List TasOp → TasState
  | [] => st
  | op :: rest => runOps (applyOp st op) rest

/-- The number of rerecord increments a sequence should produce: one
for each post-load whose peer reported success while the movie carried
unsaved edits at that point. -/
def countIncr (st : TasState) : List TasOp → Nat
  | [] => 0
  | op :: rest =>
      let inc :=
        match op with
        | TasOp.loadAndPost _ _ _ m1 _ =>
            if m1 = GameMsg.MSGB_LOADING_SUCCEEDED ∧ st.movie.modifiedSinceLastStateLoad = true
            then 1 else 0
        | TasOp.edit => 0
      inc + countIncr (applyOp st op) rest

/-! ## Dynamic symbol interception (`dlhook.cpp`) -/

/-- `std::string::find(pat) != npos`: does `pat` occur as a contiguous
infix of `hay`? -/
def charsContainPattern (pat : List Char) : List Char → Bool
  | [] => pat.isPrefixOf ([] : List Char)
  | c :: t => pat.isPrefixOf (c :: t) || charsContainPattern pat t

/-- Substring search on strings (model of `std::string::find`). -/
def strFind (hay pat : String) : Bool :=
  charsContainPattern pat.toList hay.toList

/-- `add_lib`: record a successfully loaded library path in the Symbol
Registry.  `std::set` insertion keeps at most one copy of each path and
ignores a null pointer. -/
def add_lib (library : Option String) (libset : List String) : List String :=
  match library with
  | none => libset
  | some l => if l ∈ libset then libset else libset ++ [l]

/-- `find_lib`: return the first recorded path containing the given
substring, or the empty string. -/
def find_lib (library : String) (libset : List String) : String :=
  match libset.find? (fun itr => strFind itr library) with
  | some itr => itr
  | none => ""

/-- Result of the intercepted `dlopen`: the null handle or a real
(non-null) handle produced by the original loader. -/
inductive Handle
  | null
  | real
deriving DecidableEq, Repr

/-- The intercepted `dlopen` (named `dlopenHook` here since `dlopen` is
the wrapper the code installs over the real loader entry point).
`native` is the Execution Mode Guard state, `realOpenOk` whether the
real `orig::dlopen` call would succeed on this path.  Returns the
handle and the updated Symbol Registry.  The lazy caching of the real
entry point via `_dl_sym`, the debug logging and the wine hook
installation calls have no effect on the handle or the registry and are
not tracked. -/
def dlopenHook (file : Option String) (native : Bool) (realOpenOk : Bool)
    (libset : List String) : Handle × List String :=
  if native then
    ((if realOpenOk then Handle.real else Handle.null), libset)
  else
    match file with
    | some f =>
        if strFind f "libpulse" then (Handle.null, libset)
        else if strFind f "ScreenSelector.so" then (Handle.null, libset)
        else
          let result := if realOpenOk then Handle.real else Handle.null
          let libset' := if result ≠ Handle.null then add_lib (some f) libset else libset
          (result, libset')
    | none =>
        let result := if realOpenOk then Handle.real else Handle.null
        let libset' := if result ≠ Handle.null then add_lib none libset else libset
        (result, libset')

/-- Handle argument of `dlsym`. -/
inductive DlHandle
  | RTLD_NEXT
  | RTLD_DEFAULT
  | lib (name : String)
deriving DecidableEq, Repr

/-- Addresses returned by symbol resolution: null, the interceptor's
own wrapper functions, or an opaque non-null address named by a
string. -/
inductive Addr
  | null
  | wrapper_dlopen
  | wrapper_dlsym
  | addr (s : String)
deriving DecidableEq, Repr

/-- Invocations of resolution primitives performed by the intercepted
`dlsym`, in program order: the full public resolver `orig::dlsym`, the
minimal side-effect-free primitive `_dl_sym`, and the real loader call
made for the RTLD_NEXT/localtime special case. -/
inductive ResolveEvent
  | callOrigDlsym (name : String)
  | callDlSymInternal (name : String)
  | callOrigDlopen (file : String)
deriving DecidableEq, Repr

/-- Environment oracle for the resolver: what the real resolution
primitives return, whether `find_sym`'s `dladdr`-based own-library
arbitration suppresses the RTLD_DEFAULT result (the `original ==
fromLibtas` test collapsed into one predicate, since none of its inner
conditions are observable here), and the handle `dlopen("libc.so.6")`
yields in the RTLD_NEXT special case. -/
structure ResolveEnv where
  origDlsym : DlHandle → String → Addr
  dlSymInternal : DlHandle → String → Addr
  findSymSuppress : String → Bool
  libcHandle : DlHandle

/-- `find_sym` (with `original = false`, as at the `dlsym` call site):
resolve through the full public resolver at RTLD_DEFAULT, then apply
the own-library arbitration which may null the result. -/
def find_sym (env : ResolveEnv) (name : String) : Addr × List ResolveEvent :=
  let a := env.origDlsym DlHandle.RTLD_DEFAULT name
  let a' := if env.findSymSuppress name then Addr.null else a
  (a', [ResolveEvent.callOrigDlsym name])

/-- Process-wide mutable state touched by the intercepted `dlsym`: the
recursion counter, the "real dlsym pointer cached" bootstrap flag, the
Unity-detection flag and the wine `hook_ntdll` trigger flag.  The
static `safe` flag is overwritten on every entry before being read, so
it is a local in the embedding. -/
structure DlState where
  recurs_count : Int
  origDlsymInit : Bool
  isUnity : Bool
  ntdllHooked : Bool
deriving DecidableEq, Repr

/-- Output of the intercepted `dlsym`: the address, the updated state,
the resolution primitives invoked, and the value the recursion counter
held while the body ran (after the entry increment, before the exit
decrement). -/
structure DlsymOut where
  addr : Addr
  st : DlState
  events : List ResolveEvent
  duringCount : Int
deriving Repr

/-- The intercepted `dlsym` (named `dlsymHook` here).  Mirrors the
source: bootstrap the cached real pointer through `_dl_sym` on first
use; set `safe` from the counter and increment it; in native mode
delegate to `_dl_sym` (re-entrant) or `orig::dlsym`; special-case the
names "dlopen"/"dlsym"; special-case RTLD_NEXT for the localtime
family (natively reloading libc through the real loader); detect
Unity's probe symbol; otherwise resolve via `find_sym` with
`orig::dlsym` fallback, and hook ntdll on wine's init symbol.  Every
path decrements the counter before returning. -/
def dlsymHook (env : ResolveEnv) (native : Bool) (handle : DlHandle) (name : String)
    (st0 : DlState) : DlsymOut :=
  let st1 := if st0.origDlsymInit then st0 else { st0 with origDlsymInit := true }
  let t0 : List ResolveEvent :=
    if st0.origDlsymInit then [] else [ResolveEvent.callDlSymInternal "dlsym"]
  let safe := st1.recurs_count > 0
  let c := st1.recurs_count + 1
  let st2 := { st1 with recurs_count := c }
  if native then
    if safe then
      { addr := env.dlSymInternal handle name
        st := { st2 with recurs_count := c - 1 }
        events := t0 ++ [ResolveEvent.callDlSymInternal name]
        duringCount := c }
    else
      { addr := env.origDlsym handle name
        st := { st2 with recurs_count := c - 1 }
        events := t0 ++ [ResolveEvent.callOrigDlsym name]
        duringCount := c }
  else if name = "dlopen" then
    { addr := Addr.wrapper_dlopen, st := { st2 with recurs_count := c - 1 }
      events := t0, duringCount := c }
  else if name = "dlsym" then
    { addr := Addr.wrapper_dlsym, st := { st2 with recurs_count := c - 1 }
      events := t0, duringCount := c }
  else if handle = DlHandle.RTLD_NEXT ∧
      (name = "localtime" ∨ name = "localtime64" ∨
       name = "localtime_r" ∨ name = "localtime64_r") then
    { addr := env.origDlsym env.libcHandle name
      st := { st2 with recurs_count := c - 1 }
      events := t0 ++ [ResolveEvent.callOrigDlopen "libc.so.6", ResolveEvent.callOrigDlsym name]
      duringCount := c }
  else
    let st3 := if name = "mono_unity_liveness_allocate_struct" then { st2 with isUnity := true }
               else st2
    let fr := find_sym env name
    let addr := if fr.1 = Addr.null then env.origDlsym handle name else fr.1
    let t2 := if fr.1 = Addr.null then fr.2 ++ [ResolveEvent.callOrigDlsym name] else fr.2
    let st4 := if name = "__wine_process_init" then { st3 with ntdllHooked := true } else st3
    { addr := addr
      st := { st4 with recurs_count := c - 1 }
      events := t0 ++ t2
      duringCount := c }

/-! ## Concrete fixtures used by witnesses and counterexamples -/

/-- A playback-mode context at frame 500, OSD and RAM-backed savestates
off. -/
def ctxA : Context :=
  { framecount := 500, rerecord_count := 0, current_time_sec := 0, current_time_nsec := 0,
    movie_time_sec := 0, movie_time_nsec := 0,
    sc := { recording := Recording.RECORDING_READ, ssRAM := false, osdMessages := false,
            movie_framecount := 0, initial_time_sec := 0, initial_time_nsec := 0 },
    savestatedir := "/states", gamename := "game" }

/-- Slot 2 with nothing built yet. -/
def slotA : SaveStateSlot :=
  { id := 2, is_backtrack := false, framecount := 0, path := "", pagemap_path := "",
    pages_path := "", movie_path := "", saving_msg := "", no_state_msg := "",
    loading_msg := "", loaded_msg := "" }

/-- Slot 2's disk state: both snapshot files present, companion movie
loads fine and holds the four frames U,U,D,D. -/
def diskA : Disk :=
  { pagemapExists := true, pagesExists := true, movieExists := true, movieLoadRet := 0,
    movieInputs := [InputFrame.U, InputFrame.U, InputFrame.D, InputFrame.D] }

/-- The live movie U,U,D,D,L — a strict extension of `diskA`'s slot
movie. -/
def movieA : MovieFile :=
  { inputs := [InputFrame.U, InputFrame.U, InputFrame.D, InputFrame.D, InputFrame.L],
    modifiedSinceLastStateLoad := false }

/-- A resolver environment whose primitives return distinct opaque
addresses and whose own-library arbitration never suppresses. -/
def envA : ResolveEnv :=
  { origDlsym := fun _ _ => Addr.addr "from-orig-dlsym"
    dlSymInternal := fun _ _ => Addr.addr "from-dl-sym-internal"
    findSymSuppress := fun _ => false
    libcHandle := DlHandle.lib "libc" }

/-- Resolver state of a re-entrant call: counter already 1 on entry,
bootstrap done. -/
def stA : DlState :=
  { recurs_count := 1, origDlsymInit := true, isUnity := false, ntdllHooked := false }

/-! ## Claims -/

/-- Claim C2: in the concrete scenario where slot 2 was saved at frame
count 500 with recorded movie [U,U,D,D] and the live movie at frame 500
is [U,U,D,D,L], a non-branch playback load of slot 2 passes the
consistency check and succeeds (the final load-state message is sent),
because the slot's movie is a prefix of the live movie over the slot
movie's length. -/
theorem C2_concrete_scenario :
    (SaveState.load ctxA movieA false slotA diskA).1 = LoadResult.ok ∧
    (SaveState.load ctxA movieA false slotA diskA).2.getLast?
      = some (Event.sendMsg Msg.MSGN_LOADSTATE) ∧
    isMoviePrefixOf diskA.movieInputs movieA.inputs = true ∧
    ctxA.framecount = 500 := by
  decide

/-- Claim C1, counterexample: the claim orients the non-branch playback
consistency check as "the current movie must be a prefix of the slot's
recorded movie".  With current movie [U] and slot movie [U,D] that
check passes, yet the code returns the input-mismatch outcome instead
of proceeding to send the load-state message: the source checks the
opposite direction ("Checking if the savestate movie is a prefix of our
movie"). -/
theorem C1_counterexample :
    isMoviePrefixOf [InputFrame.U] [InputFrame.U, InputFrame.D] = true ∧
    (SaveState.load ctxA { inputs := [InputFrame.U], modifiedSinceLastStateLoad := false }
        false slotA { diskA with movieInputs := [InputFrame.U, InputFrame.D] }).1
      = LoadResult.EINPUTMISMATCH := by
  decide

/-- Claim C6, counterexample: when the first message received by the
post-load is neither the loading-success report nor a frame/time
report, the operation returns the protocol-error outcome without
sending the expose message — expose is not sent "regardless of
success". -/
theorem C6_counterexample :
    (SaveState.postLoad ctxA movieA false slotA diskA (GameMsg.other 1) (GameMsg.other 2)).result
      = PostLoadResult.ENOLOAD ∧
    Event.sendMsg Msg.MSGN_EXPOSE
      ∉ (SaveState.postLoad ctxA movieA false slotA diskA (GameMsg.other 1)
          (GameMsg.other 2)).events := by
  decide

/-- Claim C9, counterexample: on a re-entrant entry (counter 1 > 0) in
non-native mode the resolver does not switch to the minimal `_dl_sym`
primitive: resolving "foo" invokes the full public resolver
`orig::dlsym` (inside `find_sym`), and no minimal-primitive invocation
occurs.  The counter-discipline half of the claim holds and is proved
in the amended theorem. -/
theorem C9_counterexample :
    stA.recurs_count > 0 ∧
    (dlsymHook envA false (DlHandle.lib "h") "foo" stA).events
      = [ResolveEvent.callOrigDlsym "foo"] := by
  decide

/-! ## Helper lemmas -/

theorem buildPaths_id (ctx : Context) (s : SaveStateSlot) : (buildPaths ctx s).id = s.id := rfl

theorem buildMessages_id (s : SaveStateSlot) : (buildMessages s).id = s.id := rfl

theorem buildMessages_movie_path (s : SaveStateSlot) :
    (buildMessages s).movie_path = s.movie_path := rfl

/-- Claim C7: in non-native mode, a deny-listed path (containing
"libpulse" or "ScreenSelector.so") makes the intercepted `dlopen`
return the null handle and leave the Symbol Registry untouched; a
non-deny-listed path whose real load succeeds yields a real handle and
adds exactly one registry entry; loading the same path a second time
leaves the registry unchanged (no duplicate). -/
theorem C7_dlopen_deny_and_registry :
    ∀ (f : String) (libs : List String),
      ((strFind f "libpulse" = true ∨ strFind f "ScreenSelector.so" = true) →
        ∀ realOpenOk : Bool, dlopenHook (some f) false realOpenOk libs = (Handle.null, libs)) ∧
      (strFind f "libpulse" = false → strFind f "ScreenSelector.so" = false → f ∉ libs →
        (dlopenHook (some f) false true libs).1 = Handle.real ∧
        (dlopenHook (some f) false true libs).2 = libs ++ [f] ∧
        (dlopenHook (some f) false true libs).2.length = libs.length + 1 ∧
        (dlopenHook (some f) false true ((dlopenHook (some f) false true libs).2)).2
          = (dlopenHook (some f) false true libs).2) := by
  intro f libs
  constructor
  · rintro (h | h) realOpenOk
    · simp [dlopenHook, h]
    · cases hp : strFind f "libpulse" <;> simp [dlopenHook, h, hp]
  · intro h1 h2 h3
    simp [dlopenHook, h1, h2, add_lib, h3]

/-- Claim C8: in non-native mode, a request for the resolver family's
own symbol names ("dlopen" or "dlsym") returns the interceptor's own
wrapper address for that name, invokes no resolution primitive at all
(once the real-pointer bootstrap has happened), and leaves the
interceptor state unchanged — for any handle argument. -/
theorem C8_dlsym_self_names :
    ∀ (env : ResolveEnv) (handle : DlHandle) (st : DlState),
      st.origDlsymInit = true →
      ((dlsymHook env false handle "dlopen" st).addr = Addr.wrapper_dlopen ∧
       (dlsymHook env false handle "dlopen" st).events = [] ∧
       (dlsymHook env false handle "dlopen" st).st = st) ∧
      ((dlsymHook env false handle "dlsym" st).addr = Addr.wrapper_dlsym ∧
       (dlsymHook env false handle "dlsym" st).events = [] ∧
       (dlsymHook env false handle "dlsym" st).st = st) := by
  intro env handle st h
  obtain ⟨rc, oi, iu, nh⟩ := st
  dsimp only at h
  subst h
  refine ⟨⟨?_, ?_, ?_⟩, ⟨?_, ?_, ?_⟩⟩ <;> simp [dlsymHook]

/-- Claim C10: the savestate-index message is the very first event of
every load operation — it is emitted before the snapshot files are
checked, so even a load that ends in the no-state or
no-state-but-movie-prefix outcome has already sent it. -/
theorem C10_index_sent_before_existence_check :
    ∀ (ctx : Context) (movie : MovieFile) (branch : Bool) (s0 : SaveStateSlot) (disk : Disk),
      (SaveState.load ctx movie branch s0 disk).2.head?
        = some (Event.sendMsg (Msg.MSGN_SAVESTATE_INDEX s0.id)) ∧
      ((SaveState.load ctx movie branch s0 disk).1 = LoadResult.ENOSTATE ∨
        (SaveState.load ctx movie branch s0 disk).1 = LoadResult.ENOSTATEMOVIEPREFIX →
        Event.sendMsg (Msg.MSGN_SAVESTATE_INDEX s0.id)
          ∈ (SaveState.load ctx movie branch s0 disk).2) := by
  intro ctx movie branch s0 disk
  have hhead : (SaveState.load ctx movie branch s0 disk).2.head?
      = some (Event.sendMsg (Msg.MSGN_SAVESTATE_INDEX s0.id)) := by
    simp only [SaveState.load, buildMessages_id, buildPaths_id]
    split_ifs <;> simp [buildMessages_id, buildPaths_id]
  refine ⟨hhead, fun _ => ?_⟩
  rcases hcons : (SaveState.load ctx movie branch s0 disk).2 with _ | ⟨e, t⟩
  · rw [hcons] at hhead; simp at hhead
  · rw [hcons] at hhead
    simp only [List.head?_cons, Option.some.injEq] at hhead
    rw [hhead]
    exact List.mem_cons_self _ _

/-- Claim C5: whenever the recording mode is not no-recording, the save
operation's first event is persisting the current movie to the slot's
movie file stamped with the current frame count — hence before any of
the messages it sends (index, path, save trigger); in no-recording mode
the save writes no movie file at all. -/
theorem C5_movie_saved_before_messages :
    ∀ (ctx : Context) (s0 : SaveStateSlot) (res : GameMsg),
      (ctx.sc.recording ≠ Recording.NO_RECORDING →
        (SaveState.save ctx s0 res).2.2.head?
          = some (Event.saveMovie (buildPaths ctx s0).movie_path ctx.framecount) ∧
        Event.sendMsg (Msg.MSGN_SAVESTATE_INDEX s0.id) ∈ (SaveState.save ctx s0 res).2.2 ∧
        Event.sendMsg Msg.MSGN_SAVESTATE ∈ (SaveState.save ctx s0 res).2.2) ∧
      (ctx.sc.recording = Recording.NO_RECORDING →
        ∀ (p : String) (n : Nat), Event.saveMovie p n ∉ (SaveState.save ctx s0 res).2.2) := by
  intro ctx s0 res
  constructor
  · intro h
    refine ⟨?_, ?_, ?_⟩ <;>
      · simp only [SaveState.save, buildMessages_id, buildPaths_id, buildMessages_movie_path]
        split_ifs <;> simp_all [buildMessages_id, buildPaths_id, buildMessages_movie_path]
  · intro h p n
    simp only [SaveState.save, buildMessages_id, buildPaths_id, buildMessages_movie_path]
    split_ifs <;> simp_all

/-- Claim C3: when a snapshot file of the slot is missing, the load
returns no-state — unless the recording mode is not no-recording, the
companion movie exists and loads successfully, and the current movie is
a prefix of the slot movie at the current frame count, in which case it
returns the distinguishable no-state-but-movie-prefix outcome, never
plain no-state. -/
theorem C3_no_state_fallback :
    ∀ (ctx : Context) (movie : MovieFile) (branch : Bool) (s0 : SaveStateSlot) (disk : Disk),
      (disk.pagemapExists = false ∨ disk.pagesExists = false) →
      ((ctx.sc.recording ≠ Recording.NO_RECORDING → disk.movieExists = true →
          disk.movieLoadRet = 0 →
          isPrefixUpTo movie.inputs disk.movieInputs ctx.framecount = true →
          (SaveState.load ctx movie branch s0 disk).1 = LoadResult.ENOSTATEMOVIEPREFIX) ∧
       (¬ (ctx.sc.recording ≠ Recording.NO_RECORDING ∧ disk.movieExists = true ∧
            disk.movieLoadRet = 0 ∧
            isPrefixUpTo movie.inputs disk.movieInputs ctx.framecount = true) →
          (SaveState.load ctx movie branch s0 disk).1 = LoadResult.ENOSTATE)) := by
  intro ctx movie branch s0 disk hmiss
  have hnot : ¬ (disk.pagemapExists = true ∧ disk.pagesExists = true) := by
    rcases hmiss with h | h <;> simp [h]
  constructor
  · intro h1 h2 h3 h4
    simp [SaveState.load, hnot, h1, h2, h3, h4]
  · intro hno
    simp only [SaveState.load]
    rw [if_pos hnot]
    by_cases hc : ctx.sc.recording ≠ Recording.NO_RECORDING ∧ disk.movieExists = true
    · rw [if_pos hc, if_pos hc]
      have : ¬ (disk.movieLoadRet = 0 ∧
          isPrefixUpTo movie.inputs disk.movieInputs ctx.framecount = true) := by
        intro hcontra
        exact hno ⟨hc.1, hc.2, hcontra.1, hcontra.2⟩
      simp only [this, if_neg, if_false]
    · rw [if_neg hc]

/-- Claim C1 (amended): for a load of a slot whose snapshot files
exist, in playback mode without an explicit branch, the code requires
the SLOT'S recorded movie to be a prefix of the CURRENT movie (the
converse of the claimed direction): it returns no-movie when the slot's
companion movie cannot be loaded, input-mismatch when the slot-movie-
into-current-movie prefix check fails, and proceeds to send the
load-state message when it passes; with the branch flag set, no prefix
check is performed (the companion movie is not even read) and the
load-state message is sent. -/
theorem C1_load_playback_nonbranch :
    ∀ (ctx : Context) (movie : MovieFile) (s0 : SaveStateSlot) (disk : Disk),
      disk.pagemapExists = true → disk.pagesExists = true →
      ctx.sc.recording = Recording.RECORDING_READ →
      ((disk.movieLoadRet < 0 →
          (SaveState.load ctx movie false s0 disk).1 = LoadResult.ENOMOVIE ∧
          Event.sendMsg Msg.MSGN_LOADSTATE ∉ (SaveState.load ctx movie false s0 disk).2) ∧
       (¬ disk.movieLoadRet < 0 → isMoviePrefixOf disk.movieInputs movie.inputs = false →
          (SaveState.load ctx movie false s0 disk).1 = LoadResult.EINPUTMISMATCH ∧
          Event.sendMsg Msg.MSGN_LOADSTATE ∉ (SaveState.load ctx movie false s0 disk).2) ∧
       (¬ disk.movieLoadRet < 0 → isMoviePrefixOf disk.movieInputs movie.inputs = true →
          (SaveState.load ctx movie false s0 disk).1 = LoadResult.ok ∧
          Event.sendMsg Msg.MSGN_LOADSTATE ∈ (SaveState.load ctx movie false s0 disk).2) ∧
       ((SaveState.load ctx movie true s0 disk).1 = LoadResult.ok ∧
        Event.sendMsg Msg.MSGN_LOADSTATE ∈ (SaveState.load ctx movie true s0 disk).2 ∧
        ∀ p : String, Event.loadMovie p ∉ (SaveState.load ctx movie true s0 disk).2)) := by
  intro ctx movie s0 disk hpm hps hread
  refine ⟨?_, ?_, ?_, ?_⟩
  · intro hret
    constructor <;> simp [SaveState.load, hpm, hps, hread, hret]
  · intro hret hpre
    constructor <;> simp [SaveState.load, hpm, hps, hread, hret, hpre]
  · intro hret hpre
    constructor <;> simp [SaveState.load, hpm, hps, hread, hret, hpre]
  · refine ⟨?_, ?_, ?_⟩
    · simp [SaveState.load, hpm, hps]
    · simp [SaveState.load, hpm, hps]
    · intro p
      simp [SaveState.load, hpm, hps]

/-- Claim C6 (amended): the post-load sends the final expose message
(and it is the last event) exactly when the expected frame/time report
was received, on both success and failure results; on the protocol-
error path (wrong message, the ENOLOAD outcome) it returns without
sending expose. -/
theorem C6_expose_on_frame_time :
    ∀ (ctx : Context) (movie : MovieFile) (branch : Bool) (s : SaveStateSlot) (disk : Disk)
      (m1 m2 : GameMsg),
      ((SaveState.postLoad ctx movie branch s disk m1 m2).result ≠ PostLoadResult.ENOLOAD →
        (SaveState.postLoad ctx movie branch s disk m1 m2).events.getLast?
          = some (Event.sendMsg Msg.MSGN_EXPOSE)) ∧
      ((SaveState.postLoad ctx movie branch s disk m1 m2).result = PostLoadResult.ENOLOAD →
        Event.sendMsg Msg.MSGN_EXPOSE
          ∉ (SaveState.postLoad ctx movie branch s disk m1 m2).events) := by
  intro ctx movie branch s disk m1 m2
  have hfin : ∀ (dl : Bool) (c : Context) (mv : MovieFile) (t : List Event) (fc sec nsec : Nat),
      (postLoadFinish dl c mv s t fc sec nsec).events.getLast?
        = some (Event.sendMsg Msg.MSGN_EXPOSE) := by
    intro dl c mv t fc sec nsec
    simp [postLoadFinish]
  constructor
  · intro hres
    cases m1 with
    | MSGB_LOADING_SUCCEEDED =>
        cases m2 <;>
          first
            | (exact hfin _ _ _ _ _ _ _)
            | (exfalso; apply hres; simp [SaveState.postLoad])
    | MSGB_FRAMECOUNT_TIME fc sec nsec => exact hfin _ _ _ _ _ _ _
    | MSGB_SAVING_SUCCEEDED => exfalso; apply hres; simp [SaveState.postLoad]
    | other code => exfalso; apply hres; simp [SaveState.postLoad]
  · intro hres
    cases m1 with
    | MSGB_LOADING_SUCCEEDED =>
        cases m2 with
        | MSGB_FRAMECOUNT_TIME fc sec nsec =>
            exfalso
            have := hres
            simp [SaveState.postLoad, postLoadFinish] at this
        | MSGB_SAVING_SUCCEEDED => simp [SaveState.postLoad]; split_ifs <;> simp
        | MSGB_LOADING_SUCCEEDED => simp [SaveState.postLoad]; split_ifs <;> simp
        | other code => simp [SaveState.postLoad]; split_ifs <;> simp
    | MSGB_FRAMECOUNT_TIME fc sec nsec =>
        exfalso
        have := hres
        simp [SaveState.postLoad, postLoadFinish] at this
    | MSGB_SAVING_SUCCEEDED => simp [SaveState.postLoad]
    | other code => simp [SaveState.postLoad]

/-- Claim C9 (amended): the dlsym recursion counter is incremented on
entry and decremented on every exit path: after any call it is back to
its entry value, it stays non-negative whenever it was non-negative on
entry, and the value held during the body is entry + 1.  The
minimal-primitive rule holds only on the native delegation path: a
re-entrant entry (counter > 0) in NATIVE mode resolves through the
minimal `_dl_sym` primitive and never invokes the full public resolver;
in non-native mode a re-entrant call still uses the full resolver (see
the counterexample). -/
theorem C9_recursion_counter :
    ∀ (env : ResolveEnv) (native : Bool) (handle : DlHandle) (name : String) (st : DlState),
      (dlsymHook env native handle name st).st.recurs_count = st.recurs_count ∧
      (dlsymHook env native handle name st).duringCount = st.recurs_count + 1 ∧
      (0 ≤ st.recurs_count →
        0 ≤ (dlsymHook env native handle name st).st.recurs_count ∧
        0 < (dlsymHook env native handle name st).duringCount) ∧
      (0 < st.recurs_count → native = true →
        (dlsymHook env native handle name st).addr = env.dlSymInternal handle name ∧
        ∀ n : String,
          ResolveEvent.callOrigDlsym n ∉ (dlsymHook env native handle name st).events) := by
  intro env native handle name st
  have hcount : (dlsymHook env native handle name st).st.recurs_count = st.recurs_count := by
    simp only [dlsymHook]
    split_ifs <;> simp
  have hduring : (dlsymHook env native handle name st).duringCount = st.recurs_count + 1 := by
    simp only [dlsymHook]
    split_ifs <;> simp
  refine ⟨hcount, hduring, ?_, ?_⟩
  · intro h
    constructor
    · rw [hcount]; exact h
    · rw [hduring]; omega
  · intro hpos hnat
    subst hnat
    have hsafe : st.recurs_count > 0 := hpos
    constructor
    · simp only [dlsymHook]
      split_ifs with h1 h2 <;> simp_all
    · intro n
      simp only [dlsymHook]
      split_ifs with h1 h2 <;> simp_all

theorem postLoadFinish_rerecord (dl : Bool) (c : Context) (mv : MovieFile) (s : SaveStateSlot)
    (t : List Event) (fc sec nsec : Nat) :
    (postLoadFinish dl c mv s t fc sec nsec).ctx.rerecord_count = c.rerecord_count ∧
    (postLoadFinish dl c mv s t fc sec nsec).movie = mv := by
  constructor <;> simp [postLoadFinish] <;> split_ifs <;> simp

/-- Exact effect of one post-load on the rerecord count and the dirty
flag, for every combination of inputs. -/
theorem postLoad_rerecord_modified (ctx : Context) (movie : MovieFile) (branch : Bool)
    (s : SaveStateSlot) (disk : Disk) (m1 m2 : GameMsg) :
    (SaveState.postLoad ctx movie branch s disk m1 m2).ctx.rerecord_count
      = ctx.rerecord_count +
        (if m1 = GameMsg.MSGB_LOADING_SUCCEEDED ∧ movie.modifiedSinceLastStateLoad = true
         then 1 else 0) ∧
    (SaveState.postLoad ctx movie branch s disk m1 m2).movie.modifiedSinceLastStateLoad
      = (if m1 = GameMsg.MSGB_LOADING_SUCCEEDED then false
         else movie.modifiedSinceLastStateLoad) := by
  cases m1 with
  | MSGB_LOADING_SUCCEEDED =>
      cases m2 <;> constructor <;>
        simp [SaveState.postLoad, postLoadFinish] <;> split_ifs <;> simp_all
  | MSGB_SAVING_SUCCEEDED => constructor <;> simp [SaveState.postLoad]
  | MSGB_FRAMECOUNT_TIME fc sec nsec =>
      constructor <;> simp [SaveState.postLoad, postLoadFinish] <;> split_ifs <;> simp_all
  | other code => constructor <;> simp [SaveState.postLoad]

/-- Claim C4: over any sequence of edit and load operations, the global
rerecord count increases by exactly 1 on a post-load whose peer
reported a successful load while the movie had been modified since the
last state load (and the dirty flag is then cleared); by 0 on a
successful post-load with no modification; and never when the load was
not reported successful.  The sequence part sums these per-step
increments. -/
theorem C4_rerecord_count :
    (∀ (ctx : Context) (movie : MovieFile) (branch : Bool) (s : SaveStateSlot) (disk : Disk)
       (m1 m2 : GameMsg),
      (m1 = GameMsg.MSGB_LOADING_SUCCEEDED → movie.modifiedSinceLastStateLoad = true →
        (SaveState.postLoad ctx movie branch s disk m1 m2).ctx.rerecord_count
          = ctx.rerecord_count + 1 ∧
        (SaveState.postLoad ctx movie branch s disk m1 m2).movie.modifiedSinceLastStateLoad
          = false) ∧
      (m1 = GameMsg.MSGB_LOADING_SUCCEEDED → movie.modifiedSinceLastStateLoad = false →
        (SaveState.postLoad ctx movie branch s disk m1 m2).ctx.rerecord_count
          = ctx.rerecord_count) ∧
      (m1 ≠ GameMsg.MSGB_LOADING_SUCCEEDED →
        (SaveState.postLoad ctx movie branch s disk m1 m2).ctx.rerecord_count
          = ctx.rerecord_count)) ∧
    (∀ (st : TasState) (ops : List TasOp),
      (runOps st ops).ctx.rerecord_count = st.ctx.rerecord_count + countIncr st ops) := by
  constructor
  · intro ctx movie branch s disk m1 m2
    have h := postLoad_rerecord_modified ctx movie branch s disk m1 m2
    refine ⟨fun h1 h2 => ?_, fun h1 h2 => ?_, fun h1 => ?_⟩
    · constructor
      · rw [h.1, if_pos ⟨h1, h2⟩]
      · rw [h.2, if_pos h1]
    · rw [h.1, if_neg (by simp [h2])]
      omega
    · rw [h.1, if_neg (by simp [h1])]
      omega
  · intro st ops
    induction ops generalizing st with
    | nil => simp [runOps, countIncr]
    | cons op rest ih =>
        cases op with
        | edit =>
            simp only [runOps, countIncr, applyOp, ih]
            omega
        | loadAndPost branch s disk m1 m2 =>
            have h := postLoad_rerecord_modified st.ctx st.movie branch s disk m1 m2
            simp only [runOps, countIncr, applyOp, ih]
            rw [h.1]
            split_ifs <;> omega

/-! ## Witnesses -/

theorem C1_witness :
    (SaveState.load ctxA movieA false slotA { diskA with movieLoadRet := -1 }).1
      = LoadResult.ENOMOVIE :=
  (((C1_load_playback_nonbranch ctxA movieA slotA { diskA with movieLoadRet := -1 }
      (by decide) (by decide) (by decide)).1) (by decide)).1

theorem C3_witness :
    (SaveState.load ctxA movieA false slotA { diskA with pagemapExists := false }).1
      = LoadResult.ENOSTATEMOVIEPREFIX :=
  ((C3_no_state_fallback ctxA movieA false slotA { diskA with pagemapExists := false }
      (by decide)).1) (by decide) (by decide) (by decide) (by decide)

theorem C4_witness :
    (SaveState.postLoad ctxA { movieA with modifiedSinceLastStateLoad := true } false slotA diskA
        GameMsg.MSGB_LOADING_SUCCEEDED (GameMsg.MSGB_FRAMECOUNT_TIME 500 0 0)).ctx.rerecord_count
      = ctxA.rerecord_count + 1 ∧
    (SaveState.postLoad ctxA { movieA with modifiedSinceLastStateLoad := true } false slotA diskA
        GameMsg.MSGB_LOADING_SUCCEEDED
        (GameMsg.MSGB_FRAMECOUNT_TIME 500 0 0)).movie.modifiedSinceLastStateLoad = false :=
  (C4_rerecord_count.1 ctxA { movieA with modifiedSinceLastStateLoad := true } false slotA diskA
      GameMsg.MSGB_LOADING_SUCCEEDED (GameMsg.MSGB_FRAMECOUNT_TIME 500 0 0)).1 rfl rfl

theorem C5_witness :
    (SaveState.save ctxA slotA GameMsg.MSGB_SAVING_SUCCEEDED).2.2.head?
      = some (Event.saveMovie (buildPaths ctxA slotA).movie_path ctxA.framecount) :=
  ((C5_movie_saved_before_messages ctxA slotA GameMsg.MSGB_SAVING_SUCCEEDED).1 (by decide)).1

theorem C6_witness :
    (SaveState.postLoad ctxA movieA false slotA diskA GameMsg.MSGB_LOADING_SUCCEEDED
        (GameMsg.MSGB_FRAMECOUNT_TIME 500 7 8)).events.getLast?
      = some (Event.sendMsg Msg.MSGN_EXPOSE) :=
  (C6_expose_on_frame_time ctxA movieA false slotA diskA GameMsg.MSGB_LOADING_SUCCEEDED
      (GameMsg.MSGB_FRAMECOUNT_TIME 500 7 8)).1 (by decide)

theorem C7_witness :
    dlopenHook (some "/usr/lib/x86_64/libpulse.so.0") false true ["/usr/lib/libSDL2.so"]
      = (Handle.null, ["/usr/lib/libSDL2.so"]) :=
  (C7_dlopen_deny_and_registry "/usr/lib/x86_64/libpulse.so.0" ["/usr/lib/libSDL2.so"]).1
    (by decide) true

theorem C8_witness :
    (dlsymHook envA false (DlHandle.lib "some-lib") "dlopen" stA).addr = Addr.wrapper_dlopen ∧
    (dlsymHook envA false (DlHandle.lib "some-lib") "dlsym" stA).addr = Addr.wrapper_dlsym :=
  ⟨((C8_dlsym_self_names envA (DlHandle.lib "some-lib") stA rfl).1).1,
   ((C8_dlsym_self_names envA (DlHandle.lib "some-lib") stA rfl).2).1⟩

theorem C9_witness :
    (dlsymHook envA true (DlHandle.lib "h") "malloc" stA).addr
      = envA.dlSymInternal (DlHandle.lib "h") "malloc" :=
  ((C9_recursion_counter envA true (DlHandle.lib "h") "malloc" stA).2.2.2 (by decide) rfl).1

theorem C10_witness :
    Event.sendMsg (Msg.MSGN_SAVESTATE_INDEX slotA.id)
      ∈ (SaveState.load ctxA movieA false slotA
          { diskA with pagemapExists := false, movieExists := false }).2 :=
  (C10_index_sent_before_existence_check ctxA movieA false slotA
      { diskA with pagemapExists := false, movieExists := false }).2 (Or.inl (by decide))

end LibTAS
